import Mathlib

/-!
Verification development for the xgo HTTP retry transport
(package xnet/xhttp: retryTransport.RoundTrip, isResponseRetryable,
isRequestIdempotent, isRequestRewindable, computeWaitDuration) and the
xnet/xhttp/xhttptrace client-trace context plumbing.

Modeling conventions used throughout:

* Go time.Duration values (int64 nanoseconds) and float64 values are
  modeled as exact rationals; the arithmetic performed by the source
  (interval * multiplier, jitter computation, Retry-After seconds and
  dates) is carried out exactly over the rationals.
* Header values are modeled by their parse outcome with respect to the
  two parsers the source applies to the Retry-After value: strconv.Atoi
  first, then http.ParseTime.  An absent header and a header present
  with the empty-string value are identified (http.Header.Get returns
  the empty string for both).
* The downstream round tripper, the per-retry GetBody calls, the
  context-cancellation signal, the random jitter draws and the clock are
  external interactions; they are supplied by an explicit environment
  (one entry per loop iteration).
* The retry loop of retryTransport.RoundTrip has no attempt cap and can
  in principle loop forever, so the model is fuel-bounded: a result of
  none means the loop did not terminate within the given fuel.
* The model instruments the loop: the returned record also carries the
  number of attempts made, the RetryInfo values the trace hook would be
  handed, the backoff intervals and computed waits of each timer that
  was started, and the attempt indices whose response bodies were
  drained and closed by xio.DrainClose.
-/

namespace Xhttp

/-- Header name constant from xnet/xhttp/header.go: HeaderRetryAfter. -/
def HeaderRetryAfter : String := "Retry-After"

/-- Header name constant from xnet/xhttp/header.go: HeaderIdempotencyKey. -/
def HeaderIdempotencyKey : String := "Idempotency-Key"

/-- Header name constant from xnet/xhttp/header.go: HeaderXIdempotencyKey. -/
def HeaderXIdempotencyKey : String := "X-Idempotency-Key"

/-- A header value, abstracted by its parse outcome under the two parsers
the source applies to it (strconv.Atoi first, then http.ParseTime):
`empty` is an absent header or an empty string; `intStr n` is a non-empty
string that strconv.Atoi parses as the integer n; `dateStr d` is a
non-empty string that strconv.Atoi rejects and http.ParseTime parses as
the absolute time d (in nanoseconds since the epoch); `other` is a
non-empty string rejected by both parsers. -/
inductive HeaderValue where
  | empty
  | intStr (n : ℤ)
  | dateStr (d : ℚ)
  | other
deriving DecidableEq

/-- Whether a header value is the empty string, i.e. the Go test
`headers.Get(name) == ""`. -/
def HeaderValue.isEmpty : HeaderValue → Bool
  | .empty => true
  | _ => false

/-- http.Header, restricted to the Get view the source uses. -/
abbrev Headers := List (String × HeaderValue)

/-- http.Header.Get: first value for the given name, empty if absent.
(The source only ever calls Get with the canonical constants above, so
canonicalization is the identity here.) -/
def Headers.get (h : Headers) (name : String) : HeaderValue :=
  match h.find? (fun p => p.1 == name) with
  | some p => p.2
  | none => HeaderValue.empty

/-- The body field of an http.Request as far as the transport inspects
it: nil, the http.NoBody sentinel, or some other (non-empty) reader. -/
inductive ReqBody where
  | nil
  | noBody
  | stream
deriving DecidableEq

/-- An http.Request, restricted to the fields the retry transport reads:
method, headers, the kind of body, and whether a GetBody rewind accessor
was supplied by the caller. -/
structure Request where
  method : String
  headers : Headers
  body : ReqBody
  getBody : Bool
deriving DecidableEq

/-- An http.Response, restricted to the fields the retry transport
reads: status code and headers. -/
structure Response where
  statusCode : Nat
  headers : Headers
deriving DecidableEq

/-- An opaque transport-level error value (Go error), identified by a
code so that propagation can be stated exactly. -/
structure Err where
  code : Nat
deriving DecidableEq

/-- xhttptrace.RetryInfo: retry count and triggering status code. -/
structure RetryInfo where
  retryCount : Nat
  statusCode : Nat
deriving DecidableEq

/-- isRequestIdempotent (xnet/xhttp/transport.go): true for the
idempotent methods DELETE, GET, HEAD, OPTIONS, PUT, TRACE; any other
method is treated as idempotent only if the Idempotency-Key or
X-Idempotency-Key request header is set non-empty. -/
def isRequestIdempotent (req : Request) : Bool :=
  if req.method == "DELETE" || req.method == "GET" || req.method == "HEAD" ||
      req.method == "OPTIONS" || req.method == "PUT" || req.method == "TRACE" then
    true
  else
    !(req.headers.get HeaderIdempotencyKey).isEmpty ||
      !(req.headers.get HeaderXIdempotencyKey).isEmpty

/-- isRequestRewindable (xnet/xhttp/transport.go): body nil, http.NoBody,
or a GetBody accessor supplied. -/
def isRequestRewindable (req : Request) : Bool :=
  req.body == ReqBody.nil || req.body == ReqBody.noBody || req.getBody

/-- isResponseRetryable (xnet/xhttp/status.go): 408, 425, 429 always;
413 only when a Retry-After header is set non-empty; 500, 502, 503, 504
always; everything else never. -/
def isResponseRetryable (resp : Response) : Bool :=
  if resp.statusCode == 408 || resp.statusCode == 425 || resp.statusCode == 429 then
    true
  else if resp.statusCode == 413 then
    !(resp.headers.get HeaderRetryAfter).isEmpty
  else if resp.statusCode == 500 || resp.statusCode == 502 ||
      resp.statusCode == 503 || resp.statusCode == 504 then
    true
  else
    false

/-- time.Second expressed in the nanosecond scale of time.Duration. -/
def timeSecond : ℚ := 1000000000

/-- computeWaitDuration (xnet/xhttp/transport.go).  Arguments beyond the
source's three are the environment of the call: randDraw is the value of
rand.Float64() and now is the current time in nanoseconds since the
epoch (time.Until date = date - now).  If the Retry-After header is set:
an Atoi-parsable value yields that many seconds, otherwise an
http.ParseTime-parsable value yields the time remaining until that date
(unclamped); if the header is absent or unparsable, fall through to the
backoff interval, applied verbatim when jitterFactor is zero and
otherwise jittered uniformly into
[interval - delta, interval + delta) with delta = jitterFactor * interval. -/
def computeWaitDuration (interval jitterFactor : ℚ) (headers : Headers)
    (randDraw now : ℚ) : ℚ :=
  match headers.get HeaderRetryAfter with
  | HeaderValue.intStr n => n * timeSecond
  | HeaderValue.dateStr d => d - now
  | _ =>
    if jitterFactor = 0 then
      interval
    else
      let delta := jitterFactor * interval
      let minInterval := interval - delta
      minInterval + randDraw * delta * 2

/-- The backoff-policy fields of retryTransport (the next round tripper
is supplied separately, as part of the environment). -/
structure RetryPolicy where
  initialInterval : ℚ
  intervalMultiplier : ℚ
  jitterFactor : ℚ
  maxInterval : ℚ
deriving DecidableEq

/-- The interval update performed after each retry (transport.go lines
advancing retryInterval): multiply by the interval multiplier, then
clamp to the max interval. -/
def advanceInterval (t : RetryPolicy) (interval : ℚ) : ℚ :=
  let i := interval * t.intervalMultiplier
  if i > t.maxInterval then t.maxInterval else i

/-- The value of the loop variable retryInterval after k retries:
initialInterval at k = 0, then advanced once per retry. -/
def retryIntervalAt (t : RetryPolicy) : Nat → ℚ
  | 0 => t.initialInterval
  | k + 1 => advanceInterval t (retryIntervalAt t k)

/-- The (resp, err) pair returned by one call to next.RoundTrip: either
a response with a nil error, or a non-nil error together with whatever
response value accompanied it. -/
inductive NextResult where
  | success (resp : Response)
  | failure (resp : Option Response) (e : Err)

/-- The external interactions of one RoundTrip call, indexed by loop
iteration: the downstream round tripper's result for each attempt,
whether the GetBody call of each iteration succeeds, whether the
context-cancellation signal fires before the timer during each wait, the
rand.Float64() draw of each wait, and the clock reading at each wait. -/
structure Env where
  next : Nat → NextResult
  rewindOk : Nat → Bool
  canceled : Nat → Bool
  rand : Nat → ℚ
  now : Nat → ℚ

/-- The instrumented outcome of a (terminating) RoundTrip call: the
returned response and error, the number of attempts made (calls to
next.RoundTrip), the RetryInfo values the trace Retry hook would be
handed in order, the backoff intervals and the computed wait durations
of each timer started, and the attempt indices whose response bodies
were drained and closed by xio.DrainClose. -/
structure RTReturn where
  resp : Option Response
  err : Option Err
  attempts : Nat
  trace : List RetryInfo
  intervals : List ℚ
  waits : List ℚ
  closed : List Nat
deriving DecidableEq

/-- The retry loop of retryTransport.RoundTrip, one constructor case per
return point of the source, in source order: (1) a non-nil error from
next.RoundTrip is returned as-is with its response; (2) a response that
is not retryable, or a request that is not a retry candidate, is
returned with a nil error; (3) a failing GetBody call returns the last
response with a nil error; (4) the timer is started with
computeWaitDuration and raced against the cancellation signal — if
cancellation fires first the last response is returned with a nil error
(and its body is not drained); (5) if the timer fires first the
superseded body is drained and closed, the interval is advanced, the
retry count incremented, the trace event recorded, and the loop
continues.  reqRetryable and useGetBody are fixed before the loop;
running out of fuel yields none. -/
def roundTripAux (t : RetryPolicy) (env : Env) (reqRetryable useGetBody : Bool) :
    Nat → Nat → Nat → ℚ → Option RTReturn
  | 0, _, _, _ => none
  | fuel + 1, i, retryCount, interval =>
    match env.next i with
    | NextResult.failure resp e => some ⟨resp, some e, 1, [], [], [], []⟩
    | NextResult.success resp =>
      if !reqRetryable || !isResponseRetryable resp then
        some ⟨some resp, none, 1, [], [], [], []⟩
      else if useGetBody && !env.rewindOk i then
        some ⟨some resp, none, 1, [], [], [], []⟩
      else
        let w := computeWaitDuration interval t.jitterFactor resp.headers
          (env.rand i) (env.now i)
        if env.canceled i then
          some ⟨some resp, none, 1, [], [interval], [w], []⟩
        else
          match roundTripAux t env reqRetryable useGetBody fuel (i + 1)
              (retryCount + 1) (advanceInterval t interval) with
          | none => none
          | some r =>
            some ⟨r.resp, r.err, r.attempts + 1,
              ⟨retryCount + 1, resp.statusCode⟩ :: r.trace,
              interval :: r.intervals, w :: r.waits, i :: r.closed⟩

/-- retryTransport.RoundTrip: the retry-candidate decision is taken once,
before the first attempt, and the loop starts with retryCount 0 and
retryInterval initialInterval. -/
def RoundTrip (t : RetryPolicy) (req : Request) (env : Env) (fuel : Nat) :
    Option RTReturn :=
  roundTripAux t env (isRequestIdempotent req && isRequestRewindable req)
    req.getBody fuel 0 0 t.initialInterval

/-- xhttptrace.ClientTrace: the Retry hook may be nil; hooks are
side-effecting functions, modeled by an opaque identifier since only
their identity is observable here. -/
structure ClientTrace where
  retry : Option Nat
deriving DecidableEq

/-- A context key: the package-private clientEventContextKey{} of
xhttptrace, or any other key another package may have used. -/
inductive CtxKey where
  | clientEventContextKey
  | other (n : Nat)
deriving DecidableEq

/-- A value stored in a context: a *ClientTrace, or a value of any other
type stored under some other key. -/
inductive CtxVal where
  | trace (t : ClientTrace)
  | other (n : Nat)
deriving DecidableEq

/-- context.Context restricted to the operations used: Background and
WithValue. -/
inductive Context where
  | background
  | withValue (parent : Context) (key : CtxKey) (val : CtxVal)
deriving DecidableEq

/-- context.Value: innermost binding of the key wins; none if the key
was never stored. -/
def Context.value : Context → CtxKey → Option CtxVal
  | .background, _ => none
  | .withValue parent k v, key => if k == key then some v else parent.value key

/-- Whether any binding for the key occurs anywhere in the context
chain. -/
def Context.hasKey : Context → CtxKey → Bool
  | .background, _ => false
  | .withValue parent k _, key => k == key || parent.hasKey key

/-- xhttptrace.ContextClientTrace: the value stored under
clientEventContextKey{} type-asserted to *ClientTrace, nil if absent or
of another type. -/
def ContextClientTrace (ctx : Context) : Option ClientTrace :=
  match ctx.value CtxKey.clientEventContextKey with
  | some (CtxVal.trace t) => some t
  | _ => none

/-- xhttptrace.WithClientTrace: a nil trace returns the parent
unchanged, otherwise the trace is stored under clientEventContextKey{}. -/
def WithClientTrace (parent : Context) (trace : Option ClientTrace) : Context :=
  match trace with
  | none => parent
  | some t => Context.withValue parent CtxKey.clientEventContextKey (CtxVal.trace t)

/-! ## Theorems for the claims -/

/-- Claim C2: a response is classified retryable iff its status code is
408, 425, 429, 500, 502, 503 or 504, or it is 413 with a non-empty
Retry-After header; every other status code (all 2xx and 3xx included)
is not retryable. -/
theorem responseRetryableClassification (resp : Response) :
    isResponseRetryable resp = true ↔
      (resp.statusCode = 408 ∨ resp.statusCode = 425 ∨ resp.statusCode = 429 ∨
        resp.statusCode = 500 ∨ resp.statusCode = 502 ∨ resp.statusCode = 503 ∨
        resp.statusCode = 504 ∨
        (resp.statusCode = 413 ∧
          resp.headers.get HeaderRetryAfter ≠ HeaderValue.empty)) := by
  unfold isResponseRetryable
  cases hv : resp.headers.get HeaderRetryAfter <;>
    simp only [hv, HeaderValue.isEmpty, Bool.or_eq_true, beq_iff_eq,
      Bool.not_true, Bool.not_false] <;>
    split_ifs <;> simp_all <;> omega

/-- Claim C10: the client-trace context plumbing round-trips: storing a
non-nil trace and reading it back returns exactly that trace; storing a
nil trace returns the parent context unchanged; reading a context whose
chain holds no binding for the trace key returns nil. -/
theorem clientTraceContextRoundTrip :
    (∀ (ctx : Context) (t : ClientTrace),
        ContextClientTrace (WithClientTrace ctx (some t)) = some t) ∧
    (∀ ctx : Context, WithClientTrace ctx none = ctx) ∧
    (∀ ctx : Context, ctx.hasKey CtxKey.clientEventContextKey = false →
        ContextClientTrace ctx = none) := by
  refine ⟨fun ctx t => ?_, fun ctx => rfl, fun ctx h => ?_⟩
  · simp [ContextClientTrace, WithClientTrace, Context.value]
  · have hv : ctx.value CtxKey.clientEventContextKey = none := by
      induction ctx with
      | background => rfl
      | withValue p k v ih =>
        simp only [Context.hasKey, Bool.or_eq_false_iff] at h
        simp only [Context.value]
        rw [if_neg, ih h.2]
        simpa using h.1
    simp [ContextClientTrace, hv]

/-- Witness for C10 at concrete inputs: a stored trace is read back, a
nil trace leaves the context unchanged, and a context holding only an
unrelated key yields nil. -/
theorem clientTraceContextRoundTrip_witness :
    ContextClientTrace (WithClientTrace Context.background (some ⟨some 7⟩)) =
        some ⟨some 7⟩ ∧
    WithClientTrace Context.background none = Context.background ∧
    ContextClientTrace
        (Context.withValue Context.background (CtxKey.other 3) (CtxVal.other 1)) =
      none :=
  ⟨clientTraceContextRoundTrip.1 Context.background ⟨some 7⟩,
   clientTraceContextRoundTrip.2.1 Context.background,
   clientTraceContextRoundTrip.2.2 _ (by decide)⟩

/-- Claim C4: a Retry-After header that strconv.Atoi parses as the
integer n makes the wait exactly n seconds, and one that (failing Atoi)
http.ParseTime parses as a date makes the wait the time remaining until
that date; in both cases the result is independent of the backoff
interval, the jitter factor and the random draw. -/
theorem retryAfterTakesPrecedence (interval jitterFactor randDraw now : ℚ)
    (headers : Headers) :
    (∀ n : ℤ, headers.get HeaderRetryAfter = HeaderValue.intStr n →
      computeWaitDuration interval jitterFactor headers randDraw now =
        n * timeSecond) ∧
    (∀ d : ℚ, headers.get HeaderRetryAfter = HeaderValue.dateStr d →
      computeWaitDuration interval jitterFactor headers randDraw now = d - now) := by
  constructor <;> intro x h <;> simp [computeWaitDuration, h]

/-- Witness for C4 at concrete inputs: Retry-After 5 with a jittered
backoff state of 7 waits exactly 5 seconds, and a Retry-After date waits
the time remaining until it. -/
theorem retryAfterTakesPrecedence_witness :
    computeWaitDuration 7 (1 / 2) [(HeaderRetryAfter, HeaderValue.intStr 5)]
        (1 / 3) 3 = 5 * timeSecond ∧
    computeWaitDuration 7 (1 / 2) [(HeaderRetryAfter, HeaderValue.dateStr 9)]
        (1 / 3) 3 = 9 - 3 :=
  ⟨(retryAfterTakesPrecedence 7 (1 / 2) (1 / 3) 3 _).1 5 rfl,
   (retryAfterTakesPrecedence 7 (1 / 2) (1 / 3) 3 _).2 9 rfl⟩

/-- Claim C8 as amended: computeWaitDuration performs no clamping on a
Retry-After date — it returns the signed time remaining until the date,
which is negative whenever the date lies in the past.  (The original
claim, that the result is clamped to zero and never negative, is refuted
by the counterexample below; the source passes time.Until(date) through
verbatim, and the subsequent timer simply fires immediately on a
non-positive duration.) -/
theorem retryAfterPastDateUnclamped (interval jitterFactor randDraw now d : ℚ)
    (headers : Headers)
    (h : headers.get HeaderRetryAfter = HeaderValue.dateStr d) :
    computeWaitDuration interval jitterFactor headers randDraw now = d - now ∧
    (d < now → computeWaitDuration interval jitterFactor headers randDraw now < 0) := by
  have hw : computeWaitDuration interval jitterFactor headers randDraw now = d - now := by
    simp [computeWaitDuration, h]
  exact ⟨hw, fun hd => by rw [hw]; linarith⟩

/-- Witness for the amended C8 at concrete inputs: a Retry-After date at
the epoch read 5 seconds after the epoch yields a wait of minus 5
seconds. -/
theorem retryAfterPastDateUnclamped_witness :
    computeWaitDuration 10 0 [(HeaderRetryAfter, HeaderValue.dateStr 0)] 0
        (5 * timeSecond) = 0 - 5 * timeSecond ∧
    ((0 : ℚ) < 5 * timeSecond →
      computeWaitDuration 10 0 [(HeaderRetryAfter, HeaderValue.dateStr 0)] 0
        (5 * timeSecond) < 0) :=
  retryAfterPastDateUnclamped 10 0 0 (5 * timeSecond) 0 _ rfl

/-- Counterexample to C8 as stated: computeWaitDuration returns a
strictly negative duration for a Retry-After date in the past (date at
the epoch, clock at 5 seconds after the epoch), so no clamping to zero
takes place. -/
theorem retryAfterClampCounterexample :
    computeWaitDuration 10 0 [(HeaderRetryAfter, HeaderValue.dateStr 0)] 0
      (5 * timeSecond) < 0 := by
  norm_num [computeWaitDuration, Headers.get, timeSecond]

/-- Claim C9: absent a Retry-After header, a zero jitter factor makes
the wait exactly the current backoff interval, and a positive jitter
factor J keeps the wait within [I*(1-J), I*(1+J)] for every random draw
in [0, 1).  (The interval is a duration and hence non-negative.) -/
theorem jitterWaitBounds (interval jitterFactor randDraw now : ℚ)
    (headers : Headers)
    (hhdr : headers.get HeaderRetryAfter = HeaderValue.empty)
    (hI : 0 ≤ interval) :
    (jitterFactor = 0 →
      computeWaitDuration interval jitterFactor headers randDraw now = interval) ∧
    (0 < jitterFactor → 0 ≤ randDraw → randDraw < 1 →
      interval * (1 - jitterFactor) ≤
          computeWaitDuration interval jitterFactor headers randDraw now ∧
        computeWaitDuration interval jitterFactor headers randDraw now ≤
          interval * (1 + jitterFactor)) := by
  simp only [computeWaitDuration, hhdr]
  refine ⟨fun hj => by rw [if_pos hj], fun hj hr0 hr1 => ?_⟩
  rw [if_neg hj.ne']
  constructor <;> nlinarith [mul_nonneg hI hj.le, mul_nonneg hr0 (mul_nonneg hj.le hI)]

/-- Witness for C9 at concrete inputs: with no Retry-After header, zero
jitter waits exactly the interval, and jitter 1/2 with draw 1/2 stays
within the stated band around interval 10. -/
theorem jitterWaitBounds_witness :
    computeWaitDuration 10 0 [] 0 0 = 10 ∧
    (10 * (1 - (1 / 2 : ℚ)) ≤ computeWaitDuration 10 (1 / 2) [] (1 / 2) 0 ∧
      computeWaitDuration 10 (1 / 2) [] (1 / 2) 0 ≤ 10 * (1 + (1 / 2 : ℚ))) :=
  ⟨(jitterWaitBounds 10 0 0 0 [] rfl (by norm_num)).1 rfl,
   (jitterWaitBounds 10 (1 / 2) (1 / 2) 0 [] rfl (by norm_num)).2
     (by norm_num) (by norm_num) (by norm_num)⟩

/-- A header value is non-empty iff it differs from the empty value. -/
theorem HeaderValue.isEmpty_eq_false (v : HeaderValue) :
    v.isEmpty = false ↔ v ≠ HeaderValue.empty := by
  cases v <;> simp [HeaderValue.isEmpty]

/-- Characterization of isRequestIdempotent: one of the six idempotent
methods, or a non-empty idempotency-key header (primary or legacy). -/
theorem isRequestIdempotent_iff (req : Request) :
    isRequestIdempotent req = true ↔
      (req.method = "GET" ∨ req.method = "HEAD" ∨ req.method = "PUT" ∨
        req.method = "DELETE" ∨ req.method = "OPTIONS" ∨ req.method = "TRACE" ∨
        req.headers.get HeaderIdempotencyKey ≠ HeaderValue.empty ∨
        req.headers.get HeaderXIdempotencyKey ≠ HeaderValue.empty) := by
  unfold isRequestIdempotent
  split_ifs with hm
  · simp only [Bool.or_eq_true, beq_iff_eq] at hm
    simp only [true_iff]
    tauto
  · simp only [Bool.or_eq_true, beq_iff_eq] at hm
    push_neg at hm
    simp only [Bool.or_eq_true, Bool.not_eq_true', HeaderValue.isEmpty_eq_false]
    constructor <;> intro h <;> tauto

/-- Characterization of isRequestRewindable: body nil or http.NoBody, or
a GetBody accessor supplied. -/
theorem isRequestRewindable_iff (req : Request) :
    isRequestRewindable req = true ↔
      (req.body = ReqBody.nil ∨ req.body = ReqBody.noBody ∨ req.getBody = true) := by
  simp [isRequestRewindable, Bool.or_eq_true, or_assoc]

/-- Claim C1: the retry-candidate decision reqRetryable, taken once
before the first attempt, holds exactly when (the method is GET, HEAD,
PUT, DELETE, OPTIONS or TRACE, or a non-empty Idempotency-Key or
X-Idempotency-Key header is present) and (the body is nil, http.NoBody,
or a GetBody rewind accessor is supplied); and a request with a
non-empty body and no rewind accessor makes exactly one attempt and is
never retried, whatever its method and whatever the environment
delivers. -/
theorem retryCandidateDecision (req : Request) :
    ((isRequestIdempotent req && isRequestRewindable req) = true ↔
      ((req.method = "GET" ∨ req.method = "HEAD" ∨ req.method = "PUT" ∨
          req.method = "DELETE" ∨ req.method = "OPTIONS" ∨ req.method = "TRACE" ∨
          req.headers.get HeaderIdempotencyKey ≠ HeaderValue.empty ∨
          req.headers.get HeaderXIdempotencyKey ≠ HeaderValue.empty) ∧
        (req.body = ReqBody.nil ∨ req.body = ReqBody.noBody ∨ req.getBody = true))) ∧
    (req.body = ReqBody.stream → req.getBody = false →
      ∀ (t : RetryPolicy) (env : Env) (fuel : Nat), 0 < fuel →
        ∃ r : RTReturn, RoundTrip t req env fuel = some r ∧
          r.attempts = 1 ∧ r.trace = [] ∧ r.intervals = []) := by
  constructor
  · rw [Bool.and_eq_true, isRequestIdempotent_iff, isRequestRewindable_iff]
  · intro hb hgb t env fuel hfuel
    obtain ⟨f, rfl⟩ : ∃ f, fuel = f + 1 := ⟨fuel - 1, by omega⟩
    have hrw : isRequestRewindable req = false := by
      simp [isRequestRewindable, hb, hgb]
    unfold RoundTrip
    rw [hrw, Bool.and_false]
    cases hn : env.next 0 with
    | failure resp e =>
      exact ⟨⟨resp, some e, 1, [], [], [], []⟩, by simp [roundTripAux, hn], rfl, rfl, rfl⟩
    | success resp =>
      exact ⟨⟨some resp, none, 1, [], [], [], []⟩, by simp [roundTripAux, hn], rfl, rfl, rfl⟩

/-- Witness for C1 at a concrete input: a POST request with an
idempotency header but a non-empty body and no rewind accessor makes
exactly one attempt against an environment that would keep answering
retryable 503 responses. -/
theorem retryCandidateDecision_witness :
    ∃ r : RTReturn,
      RoundTrip ⟨10, 2, 0, 100⟩
          ⟨"POST", [(HeaderIdempotencyKey, HeaderValue.other)], ReqBody.stream, false⟩
          ⟨fun _ => NextResult.success ⟨503, []⟩, fun _ => true, fun _ => false,
           fun _ => 0, fun _ => 0⟩ 5 = some r ∧
        r.attempts = 1 ∧ r.trace = [] ∧ r.intervals = [] :=
  (retryCandidateDecision _).2 rfl rfl _ _ 5 (by omega)

/-- Claim C6: whenever the downstream round tripper returns a non-nil
error, the loop returns immediately from any retry state with exactly
that error and that response: one attempt from that point, no trace
event, no timer started, no body drained. -/
theorem transportErrorPropagated (t : RetryPolicy) (env : Env)
    (reqRetryable useGetBody : Bool) (fuel i retryCount : Nat) (interval : ℚ)
    (resp : Option Response) (e : Err)
    (hfuel : 0 < fuel) (h : env.next i = NextResult.failure resp e) :
    roundTripAux t env reqRetryable useGetBody fuel i retryCount interval =
      some ⟨resp, some e, 1, [], [], [], []⟩ := by
  obtain ⟨f, rfl⟩ : ∃ f, fuel = f + 1 := ⟨fuel - 1, by omega⟩
  simp [roundTripAux, h]

/-- Witness for C6 at a concrete input: a failing downstream call is
propagated unchanged from a mid-loop state. -/
theorem transportErrorPropagated_witness :
    roundTripAux ⟨10, 2, 0, 100⟩
      ⟨fun _ => NextResult.failure none ⟨7⟩, fun _ => true, fun _ => false,
       fun _ => 0, fun _ => 0⟩
      true true 5 2 1 20 = some ⟨none, some ⟨7⟩, 1, [], [], [], []⟩ :=
  transportErrorPropagated _ _ _ _ _ _ _ _ none ⟨7⟩ (by omega) rfl

/-- Claim C7: for a retry candidate with a GetBody accessor, when a
retryable response arrives but the GetBody call fails as the retry is
being prepared, the loop returns the last response with a nil error: no
retry is attempted and the rewind failure is not surfaced. -/
theorem rewindFailureReturnsLastResponse (t : RetryPolicy) (env : Env)
    (fuel i retryCount : Nat) (interval : ℚ) (resp : Response)
    (hfuel : 0 < fuel) (h : env.next i = NextResult.success resp)
    (hret : isResponseRetryable resp = true) (hrw : env.rewindOk i = false) :
    roundTripAux t env true true fuel i retryCount interval =
      some ⟨some resp, none, 1, [], [], [], []⟩ := by
  obtain ⟨f, rfl⟩ : ∃ f, fuel = f + 1 := ⟨fuel - 1, by omega⟩
  simp [roundTripAux, h, hret, hrw]

/-- Witness for C7 at a concrete input: a retryable 429 response with a
failing rewind is returned as-is with no error and no retry. -/
theorem rewindFailureReturnsLastResponse_witness :
    roundTripAux ⟨10, 2, 0, 100⟩
      ⟨fun _ => NextResult.success ⟨429, []⟩, fun _ => false, fun _ => false,
       fun _ => 0, fun _ => 0⟩
      true true 5 0 0 10 = some ⟨some ⟨429, []⟩, none, 1, [], [], [], []⟩ :=
  rewindFailureReturnsLastResponse _ _ _ _ _ _ ⟨429, []⟩ (by omega) rfl rfl rfl

/-- Helper: in any terminating run whose loop state starts at retry
count k with interval retryIntervalAt t k, the m-th recorded backoff
interval is retryIntervalAt t (k + m). -/
theorem roundTripAux_intervals (t : RetryPolicy) (env : Env) (rr gb : Bool) :
    ∀ (fuel i k : Nat) (r : RTReturn),
      roundTripAux t env rr gb fuel i k (retryIntervalAt t k) = some r →
      ∀ (m : Nat) (hm : m < r.intervals.length),
        r.intervals.get ⟨m, hm⟩ = retryIntervalAt t (k + m) := by
  intro fuel
  induction fuel with
  | zero =>
    intro i k r h
    simp [roundTripAux] at h
  | succ f ih =>
    intro i k r h m hm
    simp only [roundTripAux] at h
    cases hn : env.next i with
    | failure resp e =>
      rw [hn] at h
      dsimp only at h
      injection h with h
      subst h
      simp at hm
    | success resp =>
      rw [hn] at h
      dsimp only at h
      by_cases hc1 : (!rr || !isResponseRetryable resp) = true
      · rw [if_pos hc1] at h
        injection h with h
        subst h
        simp at hm
      · rw [if_neg hc1] at h
        by_cases hc2 : (gb && !env.rewindOk i) = true
        · rw [if_pos hc2] at h
          injection h with h
          subst h
          simp at hm
        · rw [if_neg hc2] at h
          by_cases hc3 : env.canceled i = true
          · rw [if_pos hc3] at h
            injection h with h
            subst h
            have hm0 : m = 0 := by simpa using hm
            subst hm0
            rfl
          · rw [if_neg hc3] at h
            cases hrec : roundTripAux t env rr gb f (i + 1) (k + 1)
                (advanceInterval t (retryIntervalAt t k)) with
            | none =>
              rw [hrec] at h
              simp at h
            | some r0 =>
              rw [hrec] at h
              dsimp only at h
              injection h with h
              subst h
              cases m with
              | zero => rfl
              | succ m =>
                have hm0 : m < r0.intervals.length := by simpa using hm
                have hstep := ih (i + 1) (k + 1) r0 hrec m hm0
                have hk : k + 1 + m = k + (m + 1) := by omega
                rw [hk] at hstep
                exact hstep

/-- Closed form of the backoff recurrence in exact arithmetic: when the
multiplier is at least one and the initial interval does not exceed the
max interval, the interval after k retries is min(I * M^k, Z). -/
theorem retryIntervalAt_eq_min (t : RetryPolicy)
    (hI : 0 < t.initialInterval) (hM : 1 ≤ t.intervalMultiplier)
    (hIZ : t.initialInterval ≤ t.maxInterval) :
    ∀ k : Nat, retryIntervalAt t k =
      min (t.initialInterval * t.intervalMultiplier ^ k) t.maxInterval := by
  intro k
  have hMpos : (0 : ℚ) < t.intervalMultiplier := lt_of_lt_of_le one_pos hM
  have hZ : (0 : ℚ) < t.maxInterval := lt_of_lt_of_le hI hIZ
  induction k with
  | zero =>
    simp [retryIntervalAt, min_eq_left hIZ]
  | succ k ih =>
    have hPk : (0 : ℚ) < t.initialInterval * t.intervalMultiplier ^ k := by positivity
    rw [retryIntervalAt, ih, advanceInterval, pow_succ]
    by_cases hle : t.initialInterval * t.intervalMultiplier ^ k ≤ t.maxInterval
    · rw [min_eq_left hle]
      split_ifs with h2
      · rw [eq_comm, min_eq_right (by nlinarith)]
      · push_neg at h2
        rw [eq_comm, min_eq_left (by nlinarith), mul_assoc]
    · push_neg at hle
      rw [min_eq_right hle.le]
      split_ifs with h2
      · rw [eq_comm, min_eq_right (by nlinarith)]
      · push_neg at h2
        have hMZ : t.maxInterval * t.intervalMultiplier = t.maxInterval :=
          le_antisymm h2 (by nlinarith)
        rw [hMZ, eq_comm, min_eq_right (by nlinarith)]

/-- Claim C3 as amended: for a policy with positive initial interval I,
multiplier M at least 1, positive max interval Z, and additionally
I ≤ Z, every backoff interval a run passes to the wait computation
before its (k+1)-th retry equals min(I * M^k, Z).  (As stated, without
the I ≤ Z proviso, the claim fails at k = 0: the first wait uses I
unclamped even when I exceeds Z — see the counterexample.) -/
theorem backoffIntervalFormula (t : RetryPolicy) (req : Request) (env : Env)
    (hI : 0 < t.initialInterval) (hM : 1 ≤ t.intervalMultiplier)
    (hZ : 0 < t.maxInterval) (hIZ : t.initialInterval ≤ t.maxInterval)
    (fuel : Nat) (r : RTReturn) (h : RoundTrip t req env fuel = some r)
    (k : Nat) (hk : k < r.intervals.length) :
    r.intervals.get ⟨k, hk⟩ =
      min (t.initialInterval * t.intervalMultiplier ^ k) t.maxInterval := by
  have hbase := roundTripAux_intervals t env
    (isRequestIdempotent req && isRequestRewindable req) req.getBody fuel 0 0 r h k hk
  rw [hbase, Nat.zero_add, retryIntervalAt_eq_min t hI hM hIZ]

/-- Witness for the amended C3 at a concrete input: a run over policy
I = 10, M = 2, J = 0, Z = 100 that is canceled during its first wait
records the backoff interval 10 = min(10 * 2^0, 100). -/
theorem backoffIntervalFormula_witness :
    (⟨some ⟨503, []⟩, none, 1, [], [(10 : ℚ)], [10], []⟩ : RTReturn).intervals.get
        ⟨0, by simp⟩ =
      min ((10 : ℚ) * 2 ^ 0) 100 :=
  backoffIntervalFormula ⟨10, 2, 0, 100⟩ ⟨"GET", [], ReqBody.noBody, false⟩
    ⟨fun _ => NextResult.success ⟨503, []⟩, fun _ => true, fun _ => true,
     fun _ => 0, fun _ => 0⟩
    (by norm_num) (by norm_num) (by norm_num) (by norm_num) 1 _
    (by norm_num [RoundTrip, roundTripAux, computeWaitDuration, Headers.get,
      isResponseRetryable, isRequestIdempotent, isRequestRewindable,
      HeaderValue.isEmpty])
    0 (by simp)

/-- Counterexample to C3 as stated: with I = 2, M = 1, Z = 1 (all
allowed by the claim: I > 0, M ≥ 1, Z > 0) the interval used before the
first retry is I = 2, not min(I * M^0, Z) = 1 — the initial interval is
not clamped to the max interval. -/
theorem backoffIntervalFormulaCounterexample :
    RoundTrip ⟨2, 1, 0, 1⟩ ⟨"GET", [], ReqBody.noBody, false⟩
        ⟨fun _ => NextResult.success ⟨503, []⟩, fun _ => true, fun _ => true,
         fun _ => 0, fun _ => 0⟩ 1 =
      some ⟨some ⟨503, []⟩, none, 1, [], [(2 : ℚ)], [2], []⟩ ∧
    ¬((2 : ℚ) = min ((2 : ℚ) * 1 ^ 0) 1) := by
  constructor
  · norm_num [RoundTrip, roundTripAux, computeWaitDuration, Headers.get,
      isResponseRetryable, isRequestIdempotent, isRequestRewindable,
      HeaderValue.isEmpty]
  · norm_num

/-- Helper: in a run of retryable successes over a retry candidate with
working rewinds, if the cancellation signal first fires during the wait
following attempt i + j (counting from loop position i), the loop
returns the response of that attempt with a nil error, having made
exactly j + 1 further attempts, emitted j trace events, and drained
exactly the j superseded response bodies — not the returned one. -/
theorem roundTripAux_cancelRun (t : RetryPolicy) (env : Env) (gb : Bool)
    (resps : Nat → Response)
    (hnext : ∀ i, env.next i = NextResult.success (resps i))
    (hret : ∀ i, isResponseRetryable (resps i) = true)
    (hrw : ∀ i, env.rewindOk i = true) :
    ∀ (j i k fuel : Nat) (interval : ℚ),
      (∀ m, m < j → env.canceled (i + m) = false) →
      env.canceled (i + j) = true → j < fuel →
      ∃ r : RTReturn,
        roundTripAux t env true gb fuel i k interval = some r ∧
          r.resp = some (resps (i + j)) ∧ r.err = none ∧ r.attempts = j + 1 ∧
          r.trace.length = j ∧
          r.closed = (List.range j).map (fun m => i + m) := by
  intro j
  induction j with
  | zero =>
    intro i k fuel interval _ hcj hfuel
    obtain ⟨f, rfl⟩ : ∃ f, fuel = f + 1 := ⟨fuel - 1, by omega⟩
    refine ⟨⟨some (resps i), none, 1, [],
      [interval],
      [computeWaitDuration interval t.jitterFactor (resps i).headers
        (env.rand i) (env.now i)], []⟩, ?_, by simp, rfl, rfl, rfl, by simp⟩
    rw [roundTripAux, hnext i]
    dsimp only
    rw [if_neg (by simp [hret i]), if_neg (by simp [hrw i]),
      if_pos (by simpa using hcj)]
  | succ j ihj =>
    intro i k fuel interval hc hcj hfuel
    obtain ⟨f, rfl⟩ : ∃ f, fuel = f + 1 := ⟨fuel - 1, by omega⟩
    have hc0 : env.canceled i = false := by simpa using hc 0 (by omega)
    obtain ⟨r0, hrec, hresp, herr, hatt, htr, hcl⟩ :=
      ihj (i + 1) (k + 1) f (advanceInterval t interval)
        (fun m hm => by
          have := hc (m + 1) (by omega)
          rwa [show i + (m + 1) = i + 1 + m by omega] at this)
        (by rwa [show i + 1 + j = i + (j + 1) by omega])
        (by omega)
    refine ⟨⟨r0.resp, r0.err, r0.attempts + 1,
      ⟨k + 1, (resps i).statusCode⟩ :: r0.trace,
      interval :: r0.intervals,
      computeWaitDuration interval t.jitterFactor (resps i).headers
          (env.rand i) (env.now i) :: r0.waits,
      i :: r0.closed⟩, ?_, ?_, ?_, ?_, ?_, ?_⟩
    · rw [roundTripAux, hnext i]
      dsimp only
      rw [if_neg (by simp [hret i]), if_neg (by simp [hrw i]), if_neg (by simp [hc0]),
        hrec]
    · rw [hresp]
      show some (resps (i + 1 + j)) = some (resps (i + (j + 1)))
      rw [show i + 1 + j = i + (j + 1) by omega]
    · exact herr
    · simp [hatt]
    · simp [htr]
    · show i :: r0.closed = (List.range (j + 1)).map (fun m => i + m)
      rw [hcl, List.range_succ_eq_map, List.map_cons, List.map_map]
      refine congrArg₂ _ rfl ?_
      refine List.map_congr_left (fun m _ => ?_)
      show i + 1 + m = i + (m + 1)
      omega

/-- Claim C5 as amended: when the request's cancellation signal fires
during the wait after attempt j (0-based), the transport stops the
timer and returns the response of attempt j with a nil error — no
further attempt is performed, cancellation is not reported as an error,
and the body of the returned response is NOT drained or closed (only
the j previously superseded bodies, attempts 0 to j-1, were).  (The
original claim also asserts that the prior response's body is drained
and closed before returning; the code's cancellation branch performs no
drain, as the counterexample shows.) -/
theorem cancelDuringWaitReturnsLastResponse (t : RetryPolicy) (req : Request)
    (env : Env) (resps : Nat → Response) (j fuel : Nat)
    (hcand : (isRequestIdempotent req && isRequestRewindable req) = true)
    (hnext : ∀ i, env.next i = NextResult.success (resps i))
    (hret : ∀ i, isResponseRetryable (resps i) = true)
    (hrw : ∀ i, env.rewindOk i = true)
    (hc : ∀ m, m < j → env.canceled m = false)
    (hcj : env.canceled j = true)
    (hfuel : j < fuel) :
    ∃ r : RTReturn, RoundTrip t req env fuel = some r ∧
      r.resp = some (resps j) ∧ r.err = none ∧ r.attempts = j + 1 ∧
      r.trace.length = j ∧ r.closed = List.range j := by
  obtain ⟨r, hr, hresp, herr, hatt, htr, hcl⟩ :=
    roundTripAux_cancelRun t env req.getBody resps hnext hret hrw j 0 0 fuel
      t.initialInterval (fun m hm => by simpa using hc m hm) (by simpa using hcj)
      hfuel
  refine ⟨r, ?_, by simpa using hresp, herr, hatt, htr, by simpa using hcl⟩
  unfold RoundTrip
  rw [hcand]
  exact hr

/-- Witness for the amended C5 at a concrete input: cancellation during
the wait after the second attempt (j = 1) returns that attempt's 503
response with no error, after one retry and with only the first
attempt's body drained. -/
theorem cancelDuringWaitReturnsLastResponse_witness :
    ∃ r : RTReturn,
      RoundTrip ⟨10, 2, 0, 100⟩ ⟨"DELETE", [], ReqBody.noBody, false⟩
          ⟨fun _ => NextResult.success ⟨503, []⟩, fun _ => true,
           fun i => i == 1, fun _ => 0, fun _ => 0⟩ 2 = some r ∧
        r.resp = some ⟨503, []⟩ ∧ r.err = none ∧ r.attempts = 2 ∧
        r.trace.length = 1 ∧ r.closed = List.range 1 :=
  cancelDuringWaitReturnsLastResponse _ _ _ (fun _ => ⟨503, []⟩) 1 2 rfl
    (fun _ => rfl) (fun _ => rfl) (fun _ => rfl)
    (fun m hm => by
      have hm0 : m = 0 := by omega
      subst hm0
      rfl)
    rfl (by omega)

/-- Counterexample to C5 as stated: a run canceled during its first wait
returns the attempt-0 response (503) with a nil error, yet its drained
list is empty — the prior response's body, which the original claim says
is drained and closed, was not (it is the very response handed back to
the caller). -/
theorem cancelDrainCounterexample :
    RoundTrip ⟨10, 2, 0, 100⟩ ⟨"GET", [], ReqBody.noBody, false⟩
        ⟨fun _ => NextResult.success ⟨503, []⟩, fun _ => true, fun _ => true,
         fun _ => 0, fun _ => 0⟩ 1 =
      some ⟨some ⟨503, []⟩, none, 1, [], [(10 : ℚ)], [10], []⟩ := by
  norm_num [RoundTrip, roundTripAux, computeWaitDuration, Headers.get,
    isResponseRetryable, isRequestIdempotent, isRequestRewindable,
    HeaderValue.isEmpty]

end Xhttp
